import Mathlib

/-!
Shallow embedding of `seastream/seastream.py` (class `SeaStream`): a thin
wrapper around a binary stream handle offering `read`, `write`, construction
from a path or an open handle, and context-manager close-on-exit.

Modelling conventions:
* A byte is a `Nat`; a Python `bytes` value is a `List Nat` (`PyBytes`).
* Dynamic Python values relevant to the wrapper are `PyVal`.  A Python type
  object used as a `read` selector is `PyVal.pytype structSize fromBytes`,
  where the two `Option` fields model the presence or absence of the
  `_struct.size` attribute and of the `from_bytes` classmethod (a type object
  may lack either: attribute lookup then raises `AttributeError`).  An object
  implementing `__bytes__` is `PyVal.renderable render`, where `render` is the
  byte string `bytes(obj)` evaluates to.  A plain `bytes` object (which does
  not expose `__bytes__` itself) is `PyVal.bytes`.
* The underlying stream handle is abstract: `RawHandle σ ρ` packages its
  `read`, `write` and `close` operations over a handle-state type `σ`, with
  `ρ` the (passthrough) return type of the raw `write`.  Each wrapper
  operation also returns the list of calls it issued to the handle
  (`HCall`), so "exactly one call", "no call before the error" and
  "argument passed unchanged" are directly observable.
* `MemHandle`/`memRawHandle` instantiate the handle with an in-memory
  `BytesIO`-like stream (a byte list plus a cursor position) for concrete
  executions and for the position-advance invariant.
* Python exceptions become `Except PyError`; errors raised by the underlying
  handle itself (open failures, short writes, ...) are passthrough per the
  code and are outside the handle interface modelled here.
-/

/-- A Python byte string, as a list of byte values. -/
abbrev PyBytes := List Nat

/-- Dynamic Python values that can reach `SeaStream.read` / `SeaStream.write`
as arguments or results. -/
inductive PyVal : Type where
  /-- A Python `int`. -/
  | int (n : Int) : PyVal
  /-- A plain `bytes` object (no `__bytes__` of its own). -/
  | bytes (b : PyBytes) : PyVal
  /-- A Python `str`. -/
  | str (s : String) : PyVal
  /-- A Python type object.  `structSize` models the `_struct.size`
  attribute chain, `fromBytes` the `from_bytes` classmethod; `none` means the
  attribute is missing and lookup raises `AttributeError`. -/
  | pytype (structSize : Option Nat) (fromBytes : Option (PyBytes → PyVal)) : PyVal
  /-- An object implementing `__bytes__`, rendering to the given bytes. -/
  | renderable (render : PyBytes) : PyVal

/-- The Python exceptions the wrapper itself can produce. -/
inductive PyError : Type where
  | typeError (msg : String) : PyError
  | valueError (msg : String) : PyError
  | attributeError : PyError
deriving DecidableEq

/-- Coarse classification of a `PyError`, used to state which kind of
validation error construction raises. -/
inductive ErrKind : Type where
  | typeKind : ErrKind
  | valueKind : ErrKind
  | attrKind : ErrKind
deriving DecidableEq

/-- The kind of a `PyError`. -/
def PyError.kind : PyError → ErrKind
  | .typeError _ => .typeKind
  | .valueError _ => .valueKind
  | .attributeError => .attrKind

/-- True exactly for `isinstance(v, int)`. -/
def PyVal.isIntVal : PyVal → Bool
  | .int _ => true
  | _ => false

/-- True exactly for `isinstance(v, type)`. -/
def PyVal.isTypeVal : PyVal → Bool
  | .pytype _ _ => true
  | _ => false

/-- True for a type object exposing both the fixed-size attribute and the
decode classmethod (a "capable type descriptor" in the spec's words). -/
def PyVal.isCapableTypeVal : PyVal → Bool
  | .pytype (some _) (some _) => true
  | _ => false

/-- `hasattr(obj, "__bytes__")`, together with the bytes `bytes(obj)`
renders when the attribute is present. -/
def bytesDunder : PyVal → Option PyBytes
  | .renderable r => some r
  | _ => none

/-- A call issued to the underlying stream handle. -/
inductive HCall : Type where
  /-- `wrapped_stream.read(n)`. -/
  | readCall (n : Int) : HCall
  /-- `wrapped_stream.write(v)` with the value passed. -/
  | writeCall (v : PyVal) : HCall
  /-- `wrapped_stream.close()`. -/
  | closeCall : HCall

/-- The interface of the wrapped binary stream handle: handle state `σ`,
raw-write return type `ρ`.  `read` takes a Python length (negative means
read to end, by the handle's own convention) and returns the bytes read. -/
structure RawHandle (σ : Type) (ρ : Type) where
  read : σ → Int → PyBytes × σ
  write : σ → PyBytes → ρ × σ
  close : σ → σ

/-- The state of a `SeaStream` object: the wrapped handle state and the
`_opened_stream` flag. -/
structure SeaStream (σ : Type) where
  wrapped_stream : σ
  opened_stream : Bool

/-- Path-like values: `VALID_PATH_TYPES = (bytes, str, PathLike)`. -/
inductive PathVal : Type where
  | ofString (p : String) : PathVal
  | ofBytes (p : PyBytes) : PathVal
  | ofPathLike (p : String) : PathVal
deriving DecidableEq

/-- The `base` constructor argument: a path-like value or an open handle. -/
inductive BaseArg (σ : Type) : Type where
  | path (p : PathVal) : BaseArg σ
  | stream (s : σ) : BaseArg σ

/--
`SeaStream.__init__(base, mode)`.  `openFn` stands for the builtin `open`
(its own failures are passthrough and not modelled).  Returns the constructed
object (or the validation error raised) together with the list of `open`
calls issued, each recorded as the `(path, mode)` pair passed.

Python source:
```
self._opened_stream = False
if isinstance(base, VALID_PATH_TYPES):
    if not isinstance(mode, str):
        raise TypeError(...)
    if "b" not in mode:
        raise ValueError(...)
    base = open(base, mode=mode)
    self._opened_stream = True
self.wrapped_stream = base
```
`"b" not in mode` is a single-character substring test, i.e. membership of
the character among the characters of `mode`, modelled on `mode.data`.
-/
def SeaStream.init {σ : Type} (openFn : PathVal → String → σ)
    (base : BaseArg σ) (mode : PyVal) :
    Except PyError (SeaStream σ) × List (PathVal × String) :=
  match base with
  | .path p =>
    match mode with
    | .str m =>
      if m.data.contains 'b' then
        (.ok ⟨openFn p m, true⟩, [(p, m)])
      else
        (.error (.valueError ("mode does not describe a binary file open mode")), [])
    | _ =>
      (.error (.typeError ("mode must be a string specifying a binary file open mode")), [])
  | .stream s => (.ok ⟨s, false⟩, [])

/--
`SeaStream.read(arg=-1)`.  Returns the result (or the error raised), the
state after the call, and the calls issued to the wrapped handle.

Python source:
```
if isinstance(arg, int):
    return self.wrapped_stream.read(arg)
elif isinstance(arg, type):
    return arg.from_bytes(self.wrapped_stream.read(arg._struct.size))
raise TypeError("Argument to read must be a type or an integer")
```
In the `type` branch Python resolves `arg.from_bytes` first, then
`arg._struct.size`, before any handle read happens; a missing attribute
raises `AttributeError` with no call made to the wrapped handle.
-/
def SeaStream.read {σ ρ : Type} (H : RawHandle σ ρ) (self : SeaStream σ)
    (arg : PyVal := PyVal.int (-1)) :
    Except PyError PyVal × SeaStream σ × List HCall :=
  match arg with
  | .int n =>
    let res := H.read self.wrapped_stream n
    (.ok (.bytes res.1), ⟨res.2, self.opened_stream⟩, [.readCall n])
  | .pytype structSize fromBytes =>
    match fromBytes with
    | none => (.error .attributeError, self, [])
    | some f =>
      match structSize with
      | none => (.error .attributeError, self, [])
      | some sz =>
        let res := H.read self.wrapped_stream (sz : Int)
        (.ok (f res.1), ⟨res.2, self.opened_stream⟩, [.readCall (sz : Int)])
  | _ =>
    (.error (.typeError ("Argument to read must be a type or an integer")), self, [])

/--
`SeaStream.write(obj)`.  Returns the raw write's return value (or the error
raised), the state after the call, and the calls issued to the handle.

Python source:
```
if hasattr(obj, "__bytes__"):
    return self.wrapped_stream.write(bytes(obj))
else:
    return self.wrapped_stream.write(obj)
```
In the `else` branch the object is passed to the raw write as-is; a
non-bytes-like object there makes the underlying handle itself raise (the
call is still recorded, the handle state is unchanged).
-/
def SeaStream.write {σ ρ : Type} (H : RawHandle σ ρ) (self : SeaStream σ)
    (obj : PyVal) :
    Except PyError ρ × SeaStream σ × List HCall :=
  match bytesDunder obj with
  | some conv =>
    let res := H.write self.wrapped_stream conv
    (.ok res.1, ⟨res.2, self.opened_stream⟩, [.writeCall (.bytes conv)])
  | none =>
    match obj with
    | .bytes b =>
      let res := H.write self.wrapped_stream b
      (.ok res.1, ⟨res.2, self.opened_stream⟩, [.writeCall (.bytes b)])
    | _ =>
      (.error (.typeError ("a bytes-like object is required")), self,
        [.writeCall obj])

/--
`SeaStream.__exit__(exc_type, exc_val, exc_tb)`: closes the wrapped stream
and implicitly returns `None`.  The exception info (if any) is modelled by
`excInfo`; the returned `Bool` is the truthiness of the return value, i.e.
whether Python suppresses an active exception (`None` is falsy, so `false`).

Python source:
```
self.wrapped_stream.close()
```
-/
def SeaStream.exit {σ ρ : Type} (H : RawHandle σ ρ) (self : SeaStream σ)
    (excInfo : Option PyError) : σ × List HCall × Bool :=
  (H.close self.wrapped_stream, [.closeCall], false)

/-- An in-memory `BytesIO`-like handle: contents plus cursor position plus
a closed flag. -/
structure MemHandle : Type where
  data : PyBytes
  pos : Nat
  closed : Bool
deriving DecidableEq

/-- Raw read of the in-memory handle: a negative length reads to the end,
otherwise up to `n` bytes are read; the cursor advances by exactly the
number of bytes returned. -/
def memRead (st : MemHandle) (n : Int) : PyBytes × MemHandle :=
  let remaining := st.data.drop st.pos
  let chunk := if n < 0 then remaining else remaining.take n.toNat
  (chunk, ⟨st.data, st.pos + chunk.length, st.closed⟩)

/-- Raw write of the in-memory handle: overwrites at the cursor (padding
with zero bytes if the cursor is past the end), advances the cursor by the
number of bytes written, and returns that count. -/
def memWrite (st : MemHandle) (b : PyBytes) : Nat × MemHandle :=
  let padded := st.data.take st.pos ++ List.replicate (st.pos - st.data.length) 0
  (b.length,
    ⟨padded ++ b ++ st.data.drop (st.pos + b.length), st.pos + b.length, st.closed⟩)

/-- Raw close of the in-memory handle. -/
def memClose (st : MemHandle) : MemHandle :=
  ⟨st.data, st.pos, true⟩

/-- The in-memory handle packaged as a `RawHandle`. -/
def memRawHandle : RawHandle MemHandle Nat :=
  ⟨memRead, memWrite, memClose⟩

/-- True exactly for `isinstance(v, str)`. -/
def PyVal.isStrVal : PyVal → Bool
  | .str _ => true
  | _ => false

/-- The kind of the validation error a construction attempt raised, if any. -/
def initErrKind {σ : Type}
    (r : Except PyError (SeaStream σ) × List (PathVal × String)) :
    Option ErrKind :=
  match r.1 with
  | .error e => some e.kind
  | .ok _ => none

/-- Claim C3: for every underlying handle behaviour and every integer `n`,
`read(n)` forwards exactly one call to the handle's raw read with argument
`n` (including `n = -1`, whose read-to-end meaning is the handle's own) and
returns that call's result unchanged. -/
theorem c3_int_read_forwards {σ ρ : Type} (H : RawHandle σ ρ)
    (st : SeaStream σ) (n : Int) :
    SeaStream.read H st (.int n) =
      (.ok (.bytes (H.read st.wrapped_stream n).1),
       ⟨(H.read st.wrapped_stream n).2, st.opened_stream⟩,
       [.readCall n]) := rfl

/-- Claim C4: for every underlying handle behaviour and every value exposing
the `__bytes__` rendering capability, `write` issues exactly one raw write
with the rendered bytes and returns the raw write's return value unchanged. -/
theorem c4_write_renderable {σ ρ : Type} (H : RawHandle σ ρ)
    (st : SeaStream σ) (r : PyBytes) :
    SeaStream.write H st (.renderable r) =
      (.ok (H.write st.wrapped_stream r).1,
       ⟨(H.write st.wrapped_stream r).2, st.opened_stream⟩,
       [.writeCall (.bytes r)]) := rfl

/-- Claim C5: for every underlying handle behaviour and every plain bytes
value (which carries no `__bytes__` capability of its own), `write` passes
the value directly and unchanged to the handle's raw write, with no
conversion step. -/
theorem c5_write_plain_bytes {σ ρ : Type} (H : RawHandle σ ρ)
    (st : SeaStream σ) (b : PyBytes) :
    SeaStream.write H st (.bytes b) =
      (.ok (H.write st.wrapped_stream b).1,
       ⟨(H.write st.wrapped_stream b).2, st.opened_stream⟩,
       [.writeCall (.bytes b)]) := rfl

/-- Claim C8: scope exit calls the handle's close exactly once,
unconditionally: the result is the same for both values of the
opened-internally flag and for any active exception, and the returned
truthiness is `false`, so an active exception is never suppressed. -/
theorem c8_exit_closes_once {σ ρ : Type} (H : RawHandle σ ρ) (s : σ)
    (flag : Bool) (excInfo : Option PyError) :
    SeaStream.exit H ⟨s, flag⟩ excInfo = (H.close s, [HCall.closeCall], false) := rfl

/-- Claim C1: for a type descriptor with declared size `N` and decoder `f`,
`read` issues exactly one raw read of `N` bytes and returns `f` applied to
exactly those `N` bytes; on the in-memory handle with at least `N` bytes
left, those are precisely the next `N` bytes and the cursor advances by
`N`. -/
theorem c1_typed_read_exact (st : SeaStream MemHandle) (N : Nat)
    (f : PyBytes → PyVal)
    (h : st.wrapped_stream.pos + N ≤ st.wrapped_stream.data.length) :
    SeaStream.read memRawHandle st (.pytype (some N) (some f)) =
      (.ok (f ((st.wrapped_stream.data.drop st.wrapped_stream.pos).take N)),
       ⟨⟨st.wrapped_stream.data, st.wrapped_stream.pos + N,
         st.wrapped_stream.closed⟩, st.opened_stream⟩,
       [.readCall (N : Int)]) ∧
    ((st.wrapped_stream.data.drop st.wrapped_stream.pos).take N).length = N := by
  have hlen :
      ((st.wrapped_stream.data.drop st.wrapped_stream.pos).take N).length = N := by
    simp only [List.length_take, List.length_drop]
    omega
  have hN : ¬((N : Int) < 0) := Int.not_lt.mpr (Int.natCast_nonneg N)
  refine ⟨?_, hlen⟩
  simp [SeaStream.read, memRawHandle, memRead, hlen, hN]

/-- Claim C1 witness: a concrete typed read of 2 bytes from a 3-byte
stream. -/
theorem c1_typed_read_exact_witness :
    (0 : Nat) + 2 ≤ ([10, 20, 30] : PyBytes).length ∧
    (SeaStream.read memRawHandle ⟨⟨[10, 20, 30], 0, false⟩, false⟩
        (.pytype (some 2) (some PyVal.bytes)) =
      (.ok (PyVal.bytes ((([10, 20, 30] : PyBytes).drop 0).take 2)),
       ⟨⟨[10, 20, 30], 0 + 2, false⟩, false⟩,
       [.readCall ((2 : Nat) : Int)]) ∧
     ((([10, 20, 30] : PyBytes).drop 0).take 2).length = 2) :=
  ⟨by decide,
   c1_typed_read_exact ⟨⟨[10, 20, 30], 0, false⟩, false⟩ 2 PyVal.bytes (by decide)⟩

/-- Claim C2 counterexample: a bare type object with neither the size
attribute nor the decode classmethod is neither an integer nor a capable
type descriptor, yet `read` raises `AttributeError` — not a TypeError of
any kind (no handle call is made either). -/
theorem c2_counterexample :
    PyVal.isIntVal (.pytype none none) = false ∧
    PyVal.isCapableTypeVal (.pytype none none) = false ∧
    SeaStream.read memRawHandle ⟨⟨[], 0, false⟩, false⟩ (.pytype none none) =
      (.error .attributeError, ⟨⟨[], 0, false⟩, false⟩, []) ∧
    PyError.kind .attributeError ≠ ErrKind.typeKind :=
  ⟨rfl, rfl, rfl, by decide⟩

/-- Claim C2 (amended): for every selector that is neither an integer nor a
type object, `read` fails with the TypeError and no call is made to the
underlying handle before the error is raised. -/
theorem c2_read_type_error {σ ρ : Type} (H : RawHandle σ ρ)
    (st : SeaStream σ) (v : PyVal)
    (hInt : PyVal.isIntVal v = false) (hTy : PyVal.isTypeVal v = false) :
    SeaStream.read H st v =
      (.error (.typeError ("Argument to read must be a type or an integer")),
       st, []) := by
  cases v with
  | int n => exact absurd hInt (by simp [PyVal.isIntVal])
  | pytype a b => exact absurd hTy (by simp [PyVal.isTypeVal])
  | bytes b => rfl
  | str s => rfl
  | renderable r => rfl

/-- Claim C2 witness: reading with a string selector raises the TypeError
with no handle call. -/
theorem c2_read_type_error_witness :
    PyVal.isIntVal (.str ("not a type or int")) = false ∧
    PyVal.isTypeVal (.str ("not a type or int")) = false ∧
    SeaStream.read memRawHandle ⟨⟨[1, 2], 0, false⟩, false⟩
        (.str ("not a type or int")) =
      (.error (.typeError ("Argument to read must be a type or an integer")),
       ⟨⟨[1, 2], 0, false⟩, false⟩, []) :=
  ⟨rfl, rfl,
   c2_read_type_error memRawHandle ⟨⟨[1, 2], 0, false⟩, false⟩
     (.str ("not a type or int")) rfl rfl⟩

/-- Claim C6: constructing from a path-like base raises the TypeError kind
iff the mode is not a string, raises the ValueError kind iff the mode is a
string lacking the binary marker, and raises no validation error
otherwise. -/
theorem c6_init_validation {σ : Type} (openFn : PathVal → String → σ)
    (p : PathVal) (mode : PyVal) :
    (initErrKind (SeaStream.init openFn (.path p) mode) = some ErrKind.typeKind ↔
      PyVal.isStrVal mode = false) ∧
    (initErrKind (SeaStream.init openFn (.path p) mode) = some ErrKind.valueKind ↔
      ∃ m, mode = PyVal.str m ∧ m.data.contains 'b' = false) ∧
    (initErrKind (SeaStream.init openFn (.path p) mode) = none ↔
      ∃ m, mode = PyVal.str m ∧ m.data.contains 'b' = true) := by
  cases mode with
  | str m =>
    by_cases hb : 'b' ∈ m.data <;>
      simp [SeaStream.init, initErrKind, PyVal.isStrVal, PyError.kind, hb]
  | int n =>
    simp [SeaStream.init, initErrKind, PyVal.isStrVal, PyError.kind]
  | bytes b =>
    simp [SeaStream.init, initErrKind, PyVal.isStrVal, PyError.kind]
  | pytype a b =>
    simp [SeaStream.init, initErrKind, PyVal.isStrVal, PyError.kind]
  | renderable r =>
    simp [SeaStream.init, initErrKind, PyVal.isStrVal, PyError.kind]

/-- Claim C7: for every path-like base and every binary mode string in the
six standard binary modes, construction issues exactly one open call with
exactly that mode, stores the resulting handle as the wrapped stream, and
the opened-internally flag is true; for a handle base the flag is false
and no open call is issued. -/
theorem c7_init_opens_exact_mode {σ : Type} (openFn : PathVal → String → σ)
    (p : PathVal) (m : String)
    (h : m ∈ ["rb", "wb", "ab", "rb+", "wb+", "ab+"]) :
    SeaStream.init openFn (.path p) (.str m) =
      (.ok ⟨openFn p m, true⟩, [(p, m)]) ∧
    ∀ s : σ, ∀ mode : PyVal,
      SeaStream.init openFn (.stream s) mode = (.ok ⟨s, false⟩, []) := by
  refine ⟨?_, fun s mode => rfl⟩
  have hb : 'b' ∈ m.data := by
    fin_cases h <;> decide
  simp [SeaStream.init, hb]

/-- Claim C7 witness: constructing from the path "/foo" with mode "rb". -/
theorem c7_init_opens_exact_mode_witness :
    ("rb" ∈ ["rb", "wb", "ab", "rb+", "wb+", "ab+"]) ∧
    SeaStream.init (fun _ _ => (⟨[], 0, false⟩ : MemHandle))
        (.path (.ofString ("/foo"))) (.str ("rb")) =
      (.ok ⟨⟨[], 0, false⟩, true⟩, [(.ofString ("/foo"), "rb")]) :=
  ⟨by decide,
   (c7_init_opens_exact_mode (fun _ _ => (⟨[], 0, false⟩ : MemHandle))
     (.ofString ("/foo")) "rb" (by decide)).1⟩

/-- Claim C9: on the in-memory handle, each completing operation advances
the cursor by exactly the number of bytes it consumed or produced, issues
exactly one raw call, and changes nothing else: reads leave the contents
and the closed flag intact, writes return exactly the produced byte count,
and the opened-internally flag is never touched. -/
theorem c9_position_advance (mh : MemHandle) (flag : Bool) (n : Int)
    (N : Nat) (f : PyBytes → PyVal) (r bs : PyBytes) :
    ((SeaStream.read memRawHandle ⟨mh, flag⟩ (.int n)).2.1.wrapped_stream.pos =
       mh.pos + (memRead mh n).1.length ∧
     (SeaStream.read memRawHandle ⟨mh, flag⟩ (.int n)).2.1.wrapped_stream.data =
       mh.data ∧
     (SeaStream.read memRawHandle ⟨mh, flag⟩ (.int n)).2.1.wrapped_stream.closed =
       mh.closed ∧
     (SeaStream.read memRawHandle ⟨mh, flag⟩ (.int n)).2.1.opened_stream = flag ∧
     (SeaStream.read memRawHandle ⟨mh, flag⟩ (.int n)).2.2 = [.readCall n]) ∧
    ((SeaStream.read memRawHandle ⟨mh, flag⟩
        (.pytype (some N) (some f))).2.1.wrapped_stream.pos =
       mh.pos + (memRead mh (N : Int)).1.length ∧
     (SeaStream.read memRawHandle ⟨mh, flag⟩
        (.pytype (some N) (some f))).2.1.wrapped_stream.data = mh.data ∧
     (SeaStream.read memRawHandle ⟨mh, flag⟩
        (.pytype (some N) (some f))).2.1.wrapped_stream.closed = mh.closed ∧
     (SeaStream.read memRawHandle ⟨mh, flag⟩
        (.pytype (some N) (some f))).2.1.opened_stream = flag ∧
     (SeaStream.read memRawHandle ⟨mh, flag⟩
        (.pytype (some N) (some f))).2.2 = [.readCall (N : Int)]) ∧
    ((SeaStream.write memRawHandle ⟨mh, flag⟩ (.renderable r)).1 =
       Except.ok r.length ∧
     (SeaStream.write memRawHandle ⟨mh, flag⟩
        (.renderable r)).2.1.wrapped_stream.pos = mh.pos + r.length ∧
     (SeaStream.write memRawHandle ⟨mh, flag⟩
        (.renderable r)).2.1.wrapped_stream.closed = mh.closed ∧
     (SeaStream.write memRawHandle ⟨mh, flag⟩ (.renderable r)).2.1.opened_stream =
       flag ∧
     (SeaStream.write memRawHandle ⟨mh, flag⟩ (.renderable r)).2.2 =
       [.writeCall (.bytes r)]) ∧
    ((SeaStream.write memRawHandle ⟨mh, flag⟩ (.bytes bs)).1 =
       Except.ok bs.length ∧
     (SeaStream.write memRawHandle ⟨mh, flag⟩
        (.bytes bs)).2.1.wrapped_stream.pos = mh.pos + bs.length ∧
     (SeaStream.write memRawHandle ⟨mh, flag⟩
        (.bytes bs)).2.1.wrapped_stream.closed = mh.closed ∧
     (SeaStream.write memRawHandle ⟨mh, flag⟩ (.bytes bs)).2.1.opened_stream =
       flag ∧
     (SeaStream.write memRawHandle ⟨mh, flag⟩ (.bytes bs)).2.2 =
       [.writeCall (.bytes bs)]) :=
  ⟨⟨rfl, rfl, rfl, rfl, rfl⟩, ⟨rfl, rfl, rfl, rfl, rfl⟩,
   ⟨rfl, rfl, rfl, rfl, rfl⟩, ⟨rfl, rfl, rfl, rfl, rfl⟩⟩

/-- Claim C10: calling `read` with no selector argument is the call with
the default selector `-1`, and on the in-memory handle it returns the
whole remainder of the stream as raw bytes, advancing the cursor past
it. -/
theorem c10_default_read_rest (mh : MemHandle) (flag : Bool) :
    SeaStream.read memRawHandle ⟨mh, flag⟩ =
      SeaStream.read memRawHandle ⟨mh, flag⟩ (.int (-1)) ∧
    SeaStream.read memRawHandle ⟨mh, flag⟩ =
      (.ok (.bytes (mh.data.drop mh.pos)),
       ⟨⟨mh.data, mh.pos + (mh.data.drop mh.pos).length, mh.closed⟩, flag⟩,
       [.readCall (-1)]) :=
  ⟨rfl, rfl⟩
